import Mathlib

/-
Verification development for the AI Builder orchestration library.

The Python source (functions.py, models.py, main_fastapi.py) is shallowly
embedded below. Pure helpers become Lean functions; the streamed model
calls are treated as opaque string-valued inputs, so a function such as
stream_codegen_with_continuation is modelled as a function of the text the
primary worker produced and the text the continuation worker produced.
Python exceptions are modelled with Except; Python dicts parsed from JSON
become insertion-ordered association lists with last-assignment-wins
update semantics, matching CPython dict behaviour.

Scope note on numbers: the embedded json_loads handles JSON integer
numerals exactly as the Python json module tokenizes them; numerals with a
fraction or exponent (floating point) are outside the embedding and make
the embedded parse fail. No claim below involves a non-integer numeral.
-/

/-- A decoded JSON value as produced by the Python json module, with
objects kept as insertion-ordered key/value lists (CPython dict order)
and numbers restricted to integers (see the scope note above). -/
inductive Json where
  | null : Json
  | bool (b : Bool) : Json
  | num (n : Int) : Json
  | str (s : String) : Json
  | arr (items : List Json) : Json
  | obj (members : List (String × Json)) : Json

/-- First-occurrence lookup in an ordered key/value list (dict read). -/
def lookupJ : List (String × Json) → String → Option Json
  | [], _ => none
  | p :: t, k => if p.1 = k then some p.2 else lookupJ t k

/-- CPython dict assignment d[k] = v on an ordered key/value list: replace
the value in place when the key is present, append otherwise. -/
def objSet : List (String × Json) → String → Json → List (String × Json)
  | [], k, v => [(k, v)]
  | p :: t, k, v => if p.1 = k then (k, v) :: t else p :: objSet t k v

/-- CPython dict.update: fold the assignments of the second dict over the
first, so second-dict entries win on key collision. -/
def dictUpdate (a b : List (String × Json)) : List (String × Json) :=
  b.foldl (fun acc p => objSet acc p.1 p.2) a

/-- The whitespace characters the Python json tokenizer skips. -/
def isJsonWs (c : Char) : Bool :=
  c = ' ' || c = '\t' || c = '\n' || c = '\r'

/-- Skip JSON whitespace. -/
def jsonWs (l : List Char) : List Char := l.dropWhile isJsonWs

/-- Value of one hex digit, as in a \u escape. -/
def hexVal (c : Char) : Option Nat :=
  if 48 ≤ c.toNat && c.toNat ≤ 57 then some (c.toNat - 48)
  else if 97 ≤ c.toNat && c.toNat ≤ 102 then some (c.toNat - 87)
  else if 65 ≤ c.toNat && c.toNat ≤ 70 then some (c.toNat - 55)
  else none

/-- Body of a JSON string literal after the opening quote, per the strict
Python json grammar: the closing quote ends it, the eight named escapes
and \uXXXX (with surrogate pairing) are decoded, raw control characters
are rejected. A lone surrogate, which Lean Char cannot hold, degrades to
Char.ofNat on the raw code unit. Fuel-bounded recursion; every step
consumes at least one input character, so fuel one above the input length
never runs out. -/
def parseJStringAux : Nat → List Char → List Char → Option (String × List Char)
  | 0, _, _ => none
  | _ + 1, _, [] => none
  | fuel + 1, acc, c :: t =>
    if c = '"' then some (String.mk acc.reverse, t)
    else if c = '\\' then
      match t with
      | [] => none
      | e :: t2 =>
        if e = '"' then parseJStringAux fuel ('"' :: acc) t2
        else if e = '\\' then parseJStringAux fuel ('\\' :: acc) t2
        else if e = '/' then parseJStringAux fuel ('/' :: acc) t2
        else if e = 'b' then parseJStringAux fuel (Char.ofNat 8 :: acc) t2
        else if e = 'f' then parseJStringAux fuel (Char.ofNat 12 :: acc) t2
        else if e = 'n' then parseJStringAux fuel ('\n' :: acc) t2
        else if e = 'r' then parseJStringAux fuel ('\r' :: acc) t2
        else if e = 't' then parseJStringAux fuel ('\t' :: acc) t2
        else if e = 'u' then
          match t2 with
          | h1 :: h2 :: h3 :: h4 :: t3 =>
            match hexVal h1, hexVal h2, hexVal h3, hexVal h4 with
            | some a, some b, some c2, some d =>
              let code := ((a * 16 + b) * 16 + c2) * 16 + d
              if 55296 ≤ code && code ≤ 56319 then
                match t3 with
                | '\\' :: 'u' :: g1 :: g2 :: g3 :: g4 :: t4 =>
                  match hexVal g1, hexVal g2, hexVal g3, hexVal g4 with
                  | some a2, some b2, some c3, some d2 =>
                    let lo := ((a2 * 16 + b2) * 16 + c3) * 16 + d2
                    if 56320 ≤ lo && lo ≤ 57343 then
                      parseJStringAux fuel
                        (Char.ofNat (65536 + (code - 55296) * 1024 + (lo - 56320)) :: acc) t4
                    else parseJStringAux fuel (Char.ofNat lo :: Char.ofNat code :: acc) t4
                  | _, _, _, _ => none
                | _ => parseJStringAux fuel (Char.ofNat code :: acc) t3
              else parseJStringAux fuel (Char.ofNat code :: acc) t3
            | _, _, _, _ => none
          | _ => none
        else none
    else if c.toNat < 32 then none
    else parseJStringAux fuel (c :: acc) t

/-- A JSON string literal body with enough fuel for its input. -/
def parseJString (l : List Char) : Option (String × List Char) :=
  parseJStringAux (l.length + 1) [] l

/-- Does the remaining input begin a fraction or exponent part? The
embedding rejects those numerals (scope note above). -/
def startsFracExp : List Char → Bool
  | [] => false
  | c :: _ => c = '.' || c = 'e' || c = 'E'

/-- Digits of a Nat numeral. -/
def natOfDigits (l : List Char) : Nat :=
  l.foldl (fun acc c => acc * 10 + (c.toNat - 48)) 0

/-- Unsigned JSON integer numeral per the Python json number grammar:
either a single 0 or a nonzero digit followed by digits (so after a
leading 0 the tokenizer stops, exactly as Python does on 01). -/
def parseUNumber : List Char → Option (Nat × List Char)
  | [] => none
  | c :: t =>
    if c = '0' then
      if startsFracExp t then none else some (0, t)
    else if c.isDigit then
      let ds := t.takeWhile Char.isDigit
      let rest := t.dropWhile Char.isDigit
      if startsFracExp rest then none else some (natOfDigits (c :: ds), rest)
    else none

/-- Signed JSON integer numeral. -/
def parseNumber : List Char → Option (Int × List Char)
  | '-' :: t => (parseUNumber t).map (fun p => (-(p.1 : Int), p.2))
  | l => (parseUNumber l).map (fun p => ((p.1 : Int), p.2))

mutual

/-- One JSON value, fuel-bounded recursion; the input is positioned at a
non-whitespace character. Mirrors the strict Python json grammar. -/
def parseValue : Nat → List Char → Option (Json × List Char)
  | 0, _ => none
  | fuel + 1, l =>
    match l with
    | [] => none
    | c :: t =>
      if c = '"' then (parseJString t).map (fun p => (Json.str p.1, p.2))
      else if c = Char.ofNat 123 then
        match jsonWs t with
        | d :: r => if d = Char.ofNat 125 then some (Json.obj [], r)
                    else parseMembers fuel [] (d :: r)
        | [] => none
      else if c = '[' then
        match jsonWs t with
        | ']' :: r => some (Json.arr [], r)
        | t2 => parseItems fuel [] t2
      else if c = 't' then
        match t with
        | 'r' :: 'u' :: 'e' :: r => some (Json.bool true, r)
        | _ => none
      else if c = 'f' then
        match t with
        | 'a' :: 'l' :: 's' :: 'e' :: r => some (Json.bool false, r)
        | _ => none
      else if c = 'n' then
        match t with
        | 'u' :: 'l' :: 'l' :: r => some (Json.null, r)
        | _ => none
      else (parseNumber l).map (fun p => (Json.num p.1, p.2))

/-- Members of a JSON object after the opening brace, at least one member
expected (the input is positioned at what must be a quoted key). Repeated
keys behave like repeated dict assignment, last value wins. -/
def parseMembers : Nat → List (String × Json) → List Char → Option (Json × List Char)
  | 0, _, _ => none
  | fuel + 1, acc, l =>
    match l with
    | '"' :: t =>
      match parseJString t with
      | none => none
      | some (k, r1) =>
        match jsonWs r1 with
        | ':' :: r2 =>
          match parseValue fuel (jsonWs r2) with
          | none => none
          | some (v, r3) =>
            let acc2 := objSet acc k v
            match jsonWs r3 with
            | ',' :: r4 => parseMembers fuel acc2 (jsonWs r4)
            | d :: r4 => if d = Char.ofNat 125 then some (Json.obj acc2, r4) else none
            | [] => none
        | _ => none
    | _ => none

/-- Items of a JSON array after the opening bracket, at least one item
expected (the input is positioned at the first item). -/
def parseItems : Nat → List Json → List Char → Option (Json × List Char)
  | 0, _, _ => none
  | fuel + 1, acc, l =>
    match parseValue fuel l with
    | none => none
    | some (v, r) =>
      match jsonWs r with
      | ',' :: r2 => parseItems fuel (acc ++ [v]) (jsonWs r2)
      | ']' :: r2 => some (Json.arr (acc ++ [v]), r2)
      | _ => none

end

/-- Embedding of Python json.loads (strict JSON, integer numerals): parse
one value surrounded by optional whitespace; any trailing non-whitespace
is the Extra data error. none models a raised json.JSONDecodeError. -/
def json_loads (s : String) : Option Json :=
  let l := s.toList
  match parseValue (l.length + 1) (jsonWs l) with
  | some (v, rest) => if (jsonWs rest).isEmpty then some v else none
  | none => none

/-- The whitespace characters Python str.strip removes (ASCII range). -/
def isPySpace (c : Char) : Bool :=
  c = ' ' || c = '\t' || c = '\n' || c = '\r' || c = Char.ofNat 11 || c = Char.ofNat 12

/-- Embedding of Python str.strip() for ASCII whitespace. -/
def pyStrip (s : String) : String :=
  String.mk (((s.toList.dropWhile isPySpace).reverse.dropWhile isPySpace).reverse)

/-- The comma-drop step of the repair: if the text ends with a comma,
drop that last character (text[:-1]), else leave the text alone. -/
def dropTrailingComma (s : String) : String :=
  match s.toList.getLast? with
  | some c => if c = ',' then String.mk s.toList.dropLast else s
  | none => s

/-- Python text.count(c) for a single character. -/
def pyCountChar (c : Char) (s : String) : Nat := s.toList.count c

/-- The repair step of extract_partial_json (functions.py lines 79-91):
strip, drop a trailing comma, then append one closing bracket per
unmatched opening bracket and after that one closing brace per unmatched
opening brace, by plain character counting. Nat subtraction models the
empty Python range when the counts are not positive. -/
def repair_text (text : String) : String :=
  let t := pyStrip text
  let t := dropTrailingComma t
  let open_braces := pyCountChar (Char.ofNat 123) t - pyCountChar (Char.ofNat 125) t
  let open_brackets := pyCountChar '[' t - pyCountChar ']' t
  t ++ String.mk (List.replicate open_brackets ']')
    ++ String.mk (List.replicate open_braces (Char.ofNat 125))

/-- Embedding of extract_partial_json (functions.py lines 72-96): parse
as-is and report (value, true) on success; otherwise repair and reparse,
reporting (value, false) on success and (none, false) when the repaired
text still fails to parse. -/
def extract_partial_json (text : String) : Option Json × Bool :=
  match json_loads text with
  | some v => (some v, true)
  | none =>
    match json_loads (repair_text text) with
    | some v => (some v, false)
    | none => (none, false)

/-- Python truthiness of a json-decoded value: None, False, 0, empty
string, empty list and empty dict are falsy. -/
def truthy : Json → Bool
  | .null => false
  | .bool b => b
  | .num n => !(n == 0)
  | .str s => !(s == "")
  | .arr l => !l.isEmpty
  | .obj m => !m.isEmpty

/-- Does the needle occur as a contiguous run at the front of the list? -/
def listStartsWith : List Char → List Char → Bool
  | [], _ => true
  | _ :: _, [] => false
  | a :: as, b :: bs => a == b && listStartsWith as bs

/-- Does the needle occur as a contiguous run anywhere in the list? -/
def listHasSub (needle : List Char) : List Char → Bool
  | [] => needle.isEmpty
  | c :: t => listStartsWith needle (c :: t) || listHasSub needle t

/-- Python substring test: needle in hay. -/
def strContains (hay needle : String) : Bool := listHasSub needle.toList hay.toList

/-- Python membership x in v for a string x against a json-decoded value:
key membership for a dict, element equality for a list (only string
elements can compare equal to a string), substring for a string, and a
raised TypeError for the other types. -/
def pyIn (needle : String) : Json → Except String Bool
  | .obj m => .ok (m.any (fun p => p.1 == needle))
  | .arr l => .ok (l.any (fun x => match x with | .str s => s == needle | _ => false))
  | .str s => .ok (strContains s needle)
  | _ => .error "TypeError: argument of type is not iterable"

mutual

/-- Size of a json value, used only as recursion fuel below. -/
def jsize : Json → Nat
  | .null => 1
  | .bool _ => 1
  | .num _ => 1
  | .str _ => 1
  | .arr l => 1 + jsizeL l
  | .obj m => 1 + jsizeM m

def jsizeL : List Json → Nat
  | [] => 0
  | x :: t => 1 + jsize x + jsizeL t

def jsizeM : List (String × Json) → Nat
  | [] => 0
  | (_, v) :: t => 1 + jsize v + jsizeM t

end

/-- Repeat a character n times as a string. -/
def spaces (n : Nat) : String := String.mk (List.replicate n ' ')

/-- Lowercase hex digit. -/
def hexDigit (n : Nat) : Char :=
  if n < 10 then Char.ofNat (48 + n) else Char.ofNat (87 + n)

/-- Four lowercase hex digits, as in the \uXXXX escapes of json.dumps. -/
def hex4 (n : Nat) : List Char :=
  [hexDigit (n / 4096 % 16), hexDigit (n / 256 % 16), hexDigit (n / 16 % 16), hexDigit (n % 16)]

/-- One character of a string under json.dumps with the default
ensure_ascii=True: the named escapes, \u00XX for other control
characters, \uXXXX for non-ASCII (a surrogate pair above the basic
plane), the character itself otherwise. -/
def jsonEscChar (c : Char) : List Char :=
  if c = '"' then ['\\', '"']
  else if c = '\\' then ['\\', '\\']
  else if c = '\n' then ['\\', 'n']
  else if c = '\r' then ['\\', 'r']
  else if c = '\t' then ['\\', 't']
  else if c.toNat = 8 then ['\\', 'b']
  else if c.toNat = 12 then ['\\', 'f']
  else if c.toNat < 32 then '\\' :: 'u' :: hex4 c.toNat
  else if c.toNat < 127 then [c]
  else if c.toNat < 65536 then '\\' :: 'u' :: hex4 c.toNat
  else
    ('\\' :: 'u' :: hex4 (55296 + (c.toNat - 65536) / 1024))
      ++ ('\\' :: 'u' :: hex4 (56320 + (c.toNat - 65536) % 1024))

/-- A json.dumps string literal. -/
def jsonQuote (s : String) : String :=
  "\"" ++ String.mk (s.toList.map jsonEscChar).flatten ++ "\""

/-- json.dumps(v, indent=2) at nesting depth d, fuel-bounded; fuel at
least sizeOf v always suffices, so the empty-string fuel case is
unreachable from json_dumps_indent2. -/
def dumpsV : Nat → Json → Nat → String
  | 0, _, _ => ""
  | _ + 1, .null, _ => "null"
  | _ + 1, .bool true, _ => "true"
  | _ + 1, .bool false, _ => "false"
  | _ + 1, .num n, _ => toString n
  | _ + 1, .str s, _ => jsonQuote s
  | _ + 1, .arr [], _ => "[]"
  | fuel + 1, .arr (x :: xs), d =>
    "[\n"
      ++ String.intercalate ",\n"
          ((x :: xs).map (fun v => spaces (2 * (d + 1)) ++ dumpsV fuel v (d + 1)))
      ++ "\n" ++ spaces (2 * d) ++ "]"
  | _ + 1, .obj [], _ => "\x7b\x7d"
  | fuel + 1, .obj (p :: ps), d =>
    "\x7b\n"
      ++ String.intercalate ",\n"
          ((p :: ps).map (fun q => spaces (2 * (d + 1)) ++ jsonQuote q.1 ++ ": "
            ++ dumpsV fuel q.2 (d + 1)))
      ++ "\n" ++ spaces (2 * d) ++ "\x7d"

/-- Embedding of json.dumps(v, indent=2). -/
def json_dumps_indent2 (v : Json) : String := dumpsV (jsize v) v 0

/-- CPython repr of a string for the character ranges exercised here:
single-quoted unless the text holds a single quote and no double quote,
with backslash, quote, newline, carriage return, tab and the remaining
C0 controls plus delete escaped. Printable-unicode classification
subtleties of the full repr are outside the exercised inputs. -/
def pyReprStrChar (q : Char) (c : Char) : List Char :=
  if c = '\\' then ['\\', '\\']
  else if c = q then ['\\', q]
  else if c = '\n' then ['\\', 'n']
  else if c = '\r' then ['\\', 'r']
  else if c = '\t' then ['\\', 't']
  else if c.toNat < 32 || c.toNat = 127 then
    ['\\', 'x', hexDigit (c.toNat / 16), hexDigit (c.toNat % 16)]
  else [c]

/-- CPython repr of a string (see pyReprStrChar). -/
def pyReprStr (s : String) : String :=
  let l := s.toList
  let sq := Char.ofNat 39
  let dq := Char.ofNat 34
  let q := if l.contains sq && !(l.contains dq) then dq else sq
  String.mk (q :: (l.map (pyReprStrChar q)).flatten ++ [q])

/-- CPython str()/repr() of a json-decoded value, fuel-bounded as in
dumpsV; containers print as Python dict and list literals. -/
def pyReprV : Nat → Json → String
  | 0, _ => ""
  | _ + 1, .null => "None"
  | _ + 1, .bool true => "True"
  | _ + 1, .bool false => "False"
  | _ + 1, .num n => toString n
  | _ + 1, .str s => pyReprStr s
  | fuel + 1, .arr l => "[" ++ String.intercalate ", " (l.map (pyReprV fuel)) ++ "]"
  | fuel + 1, .obj m =>
    "\x7b"
      ++ String.intercalate ", " (m.map (fun p => pyReprStr p.1 ++ ": " ++ pyReprV fuel p.2))
      ++ "\x7d"

/-- CPython str() of a json-decoded value: the string itself for a
string, repr-style printing otherwise. -/
def pyStr : Json → String
  | .str s => s
  | v => pyReprV (jsize v) v

/-- Python s[:n] slicing by code points. -/
def pyTake (n : Nat) (s : String) : String := String.mk (s.toList.take n)

/-- Python str.split(sep) for a single-character separator: empty pieces
are kept, the empty string splits to one empty piece. -/
def pySplitChar (sep : Char) : List Char → List (List Char)
  | [] => [[]]
  | c :: t =>
    if c = sep then [] :: pySplitChar sep t
    else
      match pySplitChar sep t with
      | [] => [[c]]
      | h :: r => (c :: h) :: r

/-- The fixed extension-to-category map of get_file_type (functions.py
lines 112-119), total via the unknown default. -/
def type_map_get (extension : String) : String :=
  if extension = "jsx" then "react_component"
  else if extension = "js" then "javascript"
  else if extension = "css" then "stylesheet"
  else if extension = "json" then "configuration"
  else if extension = "html" then "markup"
  else if extension = "md" then "markdown"
  else "unknown"

/-- The last piece of a split, parts[-1]; a split is never empty. -/
def lastPiece : List (List Char) → List Char
  | [] => []
  | [x] => x
  | _ :: y :: t => lastPiece (y :: t)

/-- Python str.lower() on the ASCII range. -/
def pyLower (s : String) : String := String.mk (s.toList.map Char.toLower)

/-- Embedding of get_file_type (functions.py lines 109-120): the piece
after the last dot (the whole path when there is no dot), lowercased,
looked up in the fixed map. -/
def get_file_type (file_path : String) : String :=
  type_map_get (pyLower (String.mk (lastPiece (pySplitChar '.' file_path.toList))))

/-- The per-file summary entry built by create_structure_only: type from
the extension, size as len(str(content)), preview as the first 100
characters of str(content), empty for a falsy content. -/
def file_entry (file_path : String) (content : Json) : Json :=
  Json.obj
    [("type", Json.str (get_file_type file_path)),
     ("size", Json.num ((pyStr content).length : Int)),
     ("preview", Json.str (if truthy content then pyTake 100 (pyStr content) else ""))]

/-- The files dict built by create_structure_only: filled only when the
project has a files key holding a dict, empty otherwise. -/
def structure_files (pm : List (String × Json)) : List (String × Json) :=
  match lookupJ pm "files" with
  | some (Json.obj fm) => fm.foldl (fun acc p => objSet acc p.1 (file_entry p.1 p.2)) []
  | _ => []

/-- Embedding of create_structure_only (functions.py lines 123-146): a
non-dict input is returned unchanged; a dict input produces the
structure-only projection with defaulted project_name and framework. -/
def create_structure_only (project_data : Json) : Json :=
  match project_data with
  | Json.obj pm =>
    Json.obj
      [("project_name", (lookupJ pm "project_name").getD (Json.str "unknown")),
       ("framework", (lookupJ pm "framework").getD (Json.str "React")),
       ("files", Json.obj (structure_files pm))]
  | v => v

/-- The statement partial_json["files"].update(continuation_json["files"])
(functions.py line 328) followed by the value partial_json then holds.
Both subscripts and the update are modelled; any combination Python would
raise on is an error. One approximation, noted for honesty: dict.update
with an iterable-of-pairs argument (a json list of two-element lists)
would succeed in Python but is treated as a raise here; no claim below
exercises that shape. -/
def pyUpdateFiles (pj cj : Json) : Except String Json :=
  match pj with
  | .obj pm =>
    match lookupJ pm "files" with
    | some (.obj pf) =>
      match cj with
      | .obj cm =>
        match lookupJ cm "files" with
        | some (.obj cf) => .ok (.obj (objSet pm "files" (.obj (dictUpdate pf cf))))
        | some _ => .error "TypeError: dict.update argument"
        | none => .error "KeyError: files"
      | _ => .error "TypeError: subscript on continuation value"
    | some _ => .error "AttributeError: no update method"
    | none => .error "KeyError: files"
  | _ => .error "TypeError: subscript on partial value"

/-- The merge try-block of stream_codegen_with_continuation
(functions.py lines 323-332), as a function of the already-decided
partial value and the continuation text: ok none when the guarding
conditions are falsy and full_output is left alone, ok (some s) when
full_output is reassigned to s, error when the block raises (the except
then leaves full_output alone as well). -/
def mergeAttempt (partial_value : Json) (continuation_output : String) : Except String (Option String) :=
  match (extract_partial_json continuation_output).1 with
  | none => .ok none
  | some c =>
    if truthy c then
      match pyIn "files" c with
      | .error e => .error e
      | .ok false => .ok none
      | .ok true =>
        let step : Except String Json :=
          if truthy partial_value then
            match pyIn "files" partial_value with
            | .error e => .error e
            | .ok true => pyUpdateFiles partial_value c
            | .ok false => .ok partial_value
          else .ok partial_value
        match step with
        | .error e => .error e
        | .ok pj2 => .ok (some (json_dumps_indent2 pj2))
    else .ok none

/-- Embedding of stream_codegen_with_continuation (functions.py lines
283-341) as a function of the primary worker text and the continuation
worker text: when the primary text is incomplete with a truthy recovered
value the continuation round runs and the merge try-block decides the
returned text; every exception of the block is caught, so the function
returns a string in all cases. -/
def stream_codegen_with_continuation (primary continuation_output : String) : String :=
  match extract_partial_json primary with
  | (some pj, false) =>
    if truthy pj then
      match mergeAttempt pj continuation_output with
      | .ok (some merged) => merged
      | .ok none => primary
      | .error _ => primary
    else primary
  | _ => primary

/-- The ordered substring fallback of get_manager_decision
(main_fastapi.py lines 84-93). -/
def manager_fallback (task_type : String) : Json :=
  if strContains task_type "code_generation" then Json.str "code_generation"
  else if strContains task_type "error_resolution" then Json.str "error_resolution"
  else if strContains task_type "code_change" then Json.str "code_change"
  else if strContains task_type "code_continuation" then Json.str "code_continuation"
  else Json.str "code_generation"

/-- Embedding of the classification step of get_manager_decision
(main_fastapi.py lines 77-95) as a function of the manager worker text:
strip, then json.loads; a parsed dict answers its task value (default the
empty string, returned verbatim whatever it is); a parse failure, or the
AttributeError of .get on a parsed non-dict, is swallowed by the bare
except and answered by the ordered substring fallback. -/
def get_manager_decision (final_output : String) : Json :=
  let task_type := pyStrip final_output
  match json_loads task_type with
  | some (Json.obj m) => (lookupJ m "task").getD (Json.str "")
  | some _ => manager_fallback task_type
  | none => manager_fallback task_type

/-- State of models.TokenManager (models.py lines 30-43): the rate-window
bookkeeping fields, with time as integral seconds on a synthetic clock
(datetime.now is passed in explicitly as the now argument below). -/
structure TokenManager where
  max_tokens_per_minute : Nat
  token_limit_threshold : Nat
  tokens_used : Nat
  start_time : Int

/-- Embedding of TokenManager.check_and_wait (models.py lines 56-73) on a
synthetic clock: the result pairs the new state with the seconds slept
(0 means the call returned without blocking). A window at least 60
seconds old resets the counter and returns at once; otherwise, when the
estimate would cross the threshold, the call sleeps out the remainder of
the window and resets, the new start_time being the wake-up instant. -/
def check_and_wait (tm : TokenManager) (now : Int) (estimated_response_tokens : Nat) :
    TokenManager × Int :=
  let elapsed_time := now - tm.start_time
  if elapsed_time ≥ 60 then
    ({ tm with tokens_used := 0, start_time := now }, 0)
  else if tm.token_limit_threshold ≤ tm.tokens_used + estimated_response_tokens then
    let wait_time := 60 - elapsed_time
    if wait_time > 0 then
      ({ tm with tokens_used := 0, start_time := now + wait_time }, wait_time)
    else (tm, 0)
  else (tm, 0)

/-- Embedding of TokenManager.add_tokens (models.py lines 75-80): add,
then clamp at max_tokens_per_minute. -/
def add_tokens (tm : TokenManager) (tokens : Nat) : TokenManager :=
  let used := tm.tokens_used + tokens
  { tm with
    tokens_used := if tm.max_tokens_per_minute < used then tm.max_tokens_per_minute else used }

/-- One call against a TokenManager: a reserve (check_and_wait at a clock
instant with an estimate) or a commit (add_tokens). -/
inductive TMOp where
  | reserve (now : Int) (estimated_response_tokens : Nat) : TMOp
  | commit (tokens : Nat) : TMOp

/-- Run a sequence of TokenManager calls, keeping only the state. -/
def runOps (tm : TokenManager) (ops : List TMOp) : TokenManager :=
  ops.foldl
    (fun s op =>
      match op with
      | TMOp.reserve now est => (check_and_wait s now est).1
      | TMOp.commit tokens => add_tokens s tokens)
    tm

/-- The local state handle_error_resolution holds when its first phase
(functions.py lines 158-191) completes without raising. -/
structure ERPhase1State where
  full_project : Json
  project_structure : Json
  error_description : String

/-- Embedding of the first phase of handle_error_resolution (functions.py
lines 153-191) for a string code argument, up to and including the two
status prints that follow the try/except. The except arm of the source
catches JSONDecodeError and TypeError and installs the fallback project,
but the local error_description is assigned only at the end of the try
block, so the print on line 190 raises UnboundLocalError whenever the
except arm ran; and when the try block completes with a non-dict parsed
project, the .get call in the print on line 191 raises AttributeError.
The project-context store write is a logging-level side effect with no
bearing on the returned state and is not modelled. -/
def handle_error_resolution_phase1 (user_input code : String) :
    Except String ERPhase1State :=
  match json_loads code with
  | none => .error "UnboundLocalError: error_description referenced before assignment"
  | some full_project =>
    match pyIn "files" full_project with
    | .error _ => .error "UnboundLocalError: error_description referenced before assignment"
    | .ok b =>
      match full_project, b with
      | Json.obj pm, _ =>
        .ok ⟨Json.obj pm, create_structure_only (Json.obj pm), user_input⟩
      | _, true => .error "UnboundLocalError: error_description referenced before assignment"
      | _, false => .error "AttributeError: object has no attribute get"

/-- Left-biased choice on optional json values, to phrase overlay
lookups: the first value wins when present. -/
def optOr : Option Json → Option Json → Option Json
  | some v, _ => some v
  | none, o => o

/-- Is the value a json object (a Python dict)? -/
def isJObj : Json → Bool
  | .obj _ => true
  | _ => false

/-- A key absent from the key list is not found. -/
theorem lookupJ_eq_none_of_not_mem (m : List (String × Json)) (k : String)
    (h : k ∉ m.map Prod.fst) : lookupJ m k = none := by
  induction m with
  | nil => rfl
  | cons p t ih =>
    simp only [List.map_cons, List.mem_cons] at h
    push_neg at h
    simp only [lookupJ]
    rw [if_neg (fun hc => h.1 hc.symm)]
    exact ih h.2

/-- Reading after a dict assignment: the assigned key answers the new
value, every other key is untouched. -/
theorem lookupJ_objSet (m : List (String × Json)) (k : String) (v : Json) (k2 : String) :
    lookupJ (objSet m k v) k2 = if k2 = k then some v else lookupJ m k2 := by
  induction m with
  | nil =>
    simp only [objSet, lookupJ]
    by_cases h : k2 = k
    · subst h; rw [if_pos rfl]
    · rw [if_neg h, if_neg (fun hc => h hc.symm)]
  | cons p t ih =>
    simp only [objSet]
    by_cases hp : p.1 = k
    · rw [if_pos hp]
      simp only [lookupJ]
      by_cases h : k2 = k
      · subst h; simp
      · rw [if_neg (fun hc => h hc.symm), if_neg h, if_neg (fun hc => h (hp ▸ hc).symm)]
    · rw [if_neg hp]
      simp only [lookupJ]
      by_cases hq : p.1 = k2
      · rw [if_pos hq, if_pos hq]
        rw [if_neg (fun hc => hp (hq.trans hc))]
      · rw [if_neg hq, if_neg hq, ih]

/-- Reading after a fold of keyed assignments whose values come from a
function of the assigned pair: with pairwise distinct assigned keys, a
key present among them answers its transformed value, any other key
falls through to the start dict. -/
theorem lookupJ_foldl_objSet (g : String → Json → Json) (fm : List (String × Json))
    (a : List (String × Json)) (k : String) (h : (fm.map Prod.fst).Nodup) :
    lookupJ (fm.foldl (fun acc p => objSet acc p.1 (g p.1 p.2)) a) k
      = optOr ((lookupJ fm k).map (g k)) (lookupJ a k) := by
  induction fm generalizing a with
  | nil => simp [lookupJ, optOr, Option.map]
  | cons p t ih =>
    obtain ⟨k0, v0⟩ := p
    simp only [List.map_cons, List.nodup_cons] at h
    simp only [List.foldl_cons]
    rw [ih (objSet a k0 (g k0 v0)) h.2]
    by_cases hk : k = k0
    · subst hk
      rw [lookupJ_eq_none_of_not_mem t k h.1]
      simp only [lookupJ, if_pos rfl, lookupJ_objSet, if_pos rfl]
      simp [optOr, Option.map]
    · simp only [lookupJ, lookupJ_objSet]
      rw [if_neg hk, if_neg (fun hc => hk hc.symm)]

/-- Overlay reading for dict.update with pairwise distinct update keys:
the updating dict wins, the updated dict is the fallback. -/
theorem lookupJ_dictUpdate (a b : List (String × Json)) (k : String)
    (h : (b.map Prod.fst).Nodup) :
    lookupJ (dictUpdate a b) k = optOr (lookupJ b k) (lookupJ a k) := by
  have := lookupJ_foldl_objSet (fun _ v => v) b a k h
  simpa [dictUpdate, Option.map_id] using this

/-- The substring fallback of the manager decision always answers one of
the four task kinds. -/
theorem manager_fallback_mem (t : String) :
    manager_fallback t ∈
      [Json.str "code_generation", Json.str "error_resolution",
       Json.str "code_change", Json.str "code_continuation"] := by
  unfold manager_fallback
  repeat' split
  all_goals simp

/-- The fixed extension map only answers the six categories or unknown. -/
theorem type_map_get_mem (e : String) :
    type_map_get e ∈
      ["react_component", "javascript", "stylesheet", "configuration",
       "markup", "markdown", "unknown"] := by
  unfold type_map_get
  repeat' split
  all_goals simp

/-- Splitting on an absent separator keeps the list whole. -/
theorem pySplitChar_of_not_contains (sep : Char) (l : List Char)
    (h : l.contains sep = false) : pySplitChar sep l = [l] := by
  induction l with
  | nil => rfl
  | cons c t ih =>
    simp only [List.contains_cons, Bool.or_eq_false_iff] at h
    have hne : c ≠ sep := by
      have := h.1
      intro hc
      subst hc
      simp at this
    simp only [pySplitChar]
    rw [if_neg hne, ih h.2]

/-- Rebuilding a string from its characters is the identity. -/
theorem stringMk_toList (s : String) : String.mk s.toList = s := rfl

/-- The preview of a string content is always its first 100 characters:
the falsy case is the empty string, whose take is empty anyway. -/
theorem preview_str (c : String) :
    (if truthy (Json.str c) then pyTake 100 (pyStr (Json.str c)) else "") = pyTake 100 c := by
  by_cases h : c = ""
  · subst h; rfl
  · rw [if_pos (by simp [truthy, h]), ]
    rfl

/-- C1: for every input string the embedded json.loads accepts,
extract_partial_json answers exactly the decoded value paired with true;
and on the truncated input the repair appends the closing bracket of the
unmatched opening bracket before the closing brace of the unmatched
opening brace, after which the repaired text decodes with flag false. -/
theorem claim_C1_partial_json_recovery :
    (∀ (text : String) (v : Json), json_loads text = some v →
       extract_partial_json text = (some v, true))
    ∧ repair_text "\x7b\"a\": 1, \"b\": [1,2" = "\x7b\"a\": 1, \"b\": [1,2]\x7d"
    ∧ extract_partial_json "\x7b\"a\": 1, \"b\": [1,2"
        = (some (Json.obj [("a", Json.num 1), ("b", Json.arr [Json.num 1, Json.num 2])]),
           false) := by
  refine ⟨?_, rfl, rfl⟩
  intro text v h
  simp [extract_partial_json, h]

/-- C1 witness: the general part of C1 applied to one complete input. -/
theorem claim_C1_partial_json_recovery_witness :
    extract_partial_json "\x7b\"a\": 7\x7d" = (some (Json.obj [("a", Json.num 7)]), true) :=
  claim_C1_partial_json_recovery.1 "\x7b\"a\": 7\x7d" (Json.obj [("a", Json.num 7)]) rfl

/-- C2 counterexample: on the dangling-trailing-comma input the code does
not answer the parsed object with flag false; the comma-drop step only
fires when the text ends with a comma, and this text ends with a brace. -/
theorem claim_C2_counterexample :
    extract_partial_json "\x7b\"a\":1,\x7d" ≠ (some (Json.obj [("a", Json.num 1)]), false) := by
  have h : extract_partial_json "\x7b\"a\":1,\x7d" = (none, false) := rfl
  rw [h]
  simp

/-- C2 amended: on the input with only a dangling trailing comma the
initial parse fails, the repair leaves the text unchanged because it does
not end with a comma and its braces balance, the reparse fails again, and
extract_partial_json answers (none, false). -/
theorem claim_C2_trailing_comma_amended :
    extract_partial_json "\x7b\"a\":1,\x7d" = (none, false)
    ∧ repair_text "\x7b\"a\":1,\x7d" = "\x7b\"a\":1,\x7d" := ⟨rfl, rfl⟩

/-- C4 (claim right, code wrong): for every string code argument the
embedded json.loads rejects, handle_error_resolution does not degrade to
the fallback project and return; its first phase raises
UnboundLocalError, because the except arm installs the fallback without
assigning the local error_description that the status print on the next
line reads. -/
theorem claim_C4_error_resolution_raises :
    ∀ (user_input code : String), json_loads code = none →
      handle_error_resolution_phase1 user_input code
        = Except.error "UnboundLocalError: error_description referenced before assignment" := by
  intro ui code h
  simp [handle_error_resolution_phase1, h]

/-- C4 witness: the failing input evaluated concretely. -/
theorem claim_C4_error_resolution_raises_witness :
    handle_error_resolution_phase1 "fix the crash" "not valid json"
      = Except.error "UnboundLocalError: error_description referenced before assignment" :=
  claim_C4_error_resolution_raises "fix the crash" "not valid json" rfl

/-- C5: after any commit the used counter is at most the capacity,
whatever calls came before, because add_tokens clamps; and a reserve at
least 60 seconds past the window start resets the counter and returns
with zero wait, whatever the estimate. -/
theorem claim_C5_token_budget :
    (∀ (tm : TokenManager) (ops : List TMOp) (tokens : Nat),
       (runOps tm (ops ++ [TMOp.commit tokens])).tokens_used
         ≤ (runOps tm (ops ++ [TMOp.commit tokens])).max_tokens_per_minute)
    ∧ (∀ (tm : TokenManager) (now : Int) (est : Nat),
       now - tm.start_time ≥ 60 →
       check_and_wait tm now est = ({ tm with tokens_used := 0, start_time := now }, 0)) := by
  constructor
  · intro tm ops tokens
    rw [runOps, List.foldl_append]
    show (add_tokens _ tokens).tokens_used ≤ (add_tokens _ tokens).max_tokens_per_minute
    dsimp [add_tokens]
    split
    · exact le_rfl
    · omega
  · intro tm now est h
    simp only [check_and_wait]
    rw [if_pos h]

/-- C5 witness: a commit over the capacity clamps, and a reserve on a
stale window resets without blocking. -/
theorem claim_C5_token_budget_witness :
    (runOps ⟨8000, 7500, 0, 0⟩ ([] ++ [TMOp.commit 9000])).tokens_used
      ≤ (runOps ⟨8000, 7500, 0, 0⟩ ([] ++ [TMOp.commit 9000])).max_tokens_per_minute
    ∧ check_and_wait ⟨8000, 7500, 3000, 0⟩ 61 500 = (⟨8000, 7500, 0, 61⟩, 0) :=
  ⟨claim_C5_token_budget.1 ⟨8000, 7500, 0, 0⟩ [] 9000,
   claim_C5_token_budget.2 ⟨8000, 7500, 3000, 0⟩ 61 500 (by decide)⟩

/-- C3 counterexample: an incomplete primary output with a truthy
recovered value and a continuation output with no parseable files merge
does not return the continuation text; the function returns the original
partial text, which differs from the continuation text. -/
theorem claim_C3_counterexample :
    stream_codegen_with_continuation "\x7b\"files\": \x7b\"a.js\": \"x\"" "oops"
        = "\x7b\"files\": \x7b\"a.js\": \"x\""
    ∧ ("\x7b\"files\": \x7b\"a.js\": \"x\"" : String) ≠ "oops" := ⟨rfl, by decide⟩

/-- C3 amended: whenever the primary output is incomplete with a truthy
recovered value and the merge try-block either skips its reassignment or
raises, the function still returns without raising, and it returns the
original partial output text unchanged, discarding the continuation
output. -/
theorem claim_C3_merge_failure_amended :
    ∀ (primary continuation_output : String) (pj : Json),
      extract_partial_json primary = (some pj, false) →
      truthy pj = true →
      (mergeAttempt pj continuation_output = Except.ok none
        ∨ ∃ e, mergeAttempt pj continuation_output = Except.error e) →
      stream_codegen_with_continuation primary continuation_output = primary := by
  intro primary cont pj h1 h2 h3
  simp only [stream_codegen_with_continuation, h1]
  rw [if_pos h2]
  rcases h3 with h | ⟨e, h⟩ <;> rw [h]

/-- C3 witness: the amended statement at a concrete truncated primary and
a continuation text that decodes to nothing. -/
theorem claim_C3_merge_failure_amended_witness :
    stream_codegen_with_continuation "\x7b\"files\": \x7b\"b.js\": \"y\"" "zzz"
      = "\x7b\"files\": \x7b\"b.js\": \"y\"" :=
  claim_C3_merge_failure_amended _ _ (Json.obj [("files", Json.obj [("b.js", Json.str "y")])])
    rfl rfl (Or.inl rfl)

/-- C6: the merged files mapping is the original overlaid with the
continuation, continuation entries winning on key collision; and the
end-to-end run on the spec instance returns the serialized object whose
files are exactly a.js to 3 then b.js to 2. -/
theorem claim_C6_merge_overlay :
    (∀ (a b : List (String × Json)), (b.map Prod.fst).Nodup →
       ∀ k, lookupJ (dictUpdate a b) k = optOr (lookupJ b k) (lookupJ a k))
    ∧ stream_codegen_with_continuation "\x7b\"files\": \x7b\"a.js\": \"1\""
        "\x7b\"files\": \x7b\"b.js\": \"2\", \"a.js\": \"3\"\x7d\x7d"
      = json_dumps_indent2
          (Json.obj [("files", Json.obj [("a.js", Json.str "3"), ("b.js", Json.str "2")])]) :=
  ⟨fun a b h k => lookupJ_dictUpdate a b k h, rfl⟩

/-- C6 witness: the overlay reading at the colliding key of the spec
instance. -/
theorem claim_C6_merge_overlay_witness :
    lookupJ (dictUpdate [("a.js", Json.str "1")]
        [("b.js", Json.str "2"), ("a.js", Json.str "3")]) "a.js"
      = optOr (lookupJ [("b.js", Json.str "2"), ("a.js", Json.str "3")] "a.js")
          (lookupJ [("a.js", Json.str "1")] "a.js") :=
  claim_C6_merge_overlay.1 _ _ (by simp) "a.js"

/-- C7 counterexample: a valid-JSON classifier output whose task field is
another string is returned verbatim, which is not one of the four kinds
and in particular is not the code_generation fallback. -/
theorem claim_C7_counterexample :
    get_manager_decision "\x7b\"task\": \"deploy\"\x7d" = Json.str "deploy"
    ∧ Json.str "deploy" ∉
        [Json.str "code_generation", Json.str "error_resolution",
         Json.str "code_change", Json.str "code_continuation"] := ⟨rfl, by simp⟩

/-- C7 amended: when the stripped output is not valid JSON, or parses to
a non-dict (whose .get raises into the bare except), the ordered
substring fallback answers one of exactly the four kinds, defaulting to
code_generation; but when it parses to a dict the task value is returned
verbatim (the empty string when absent), with no mapping onto the four
kinds. -/
theorem claim_C7_classification_amended :
    (∀ s : String, json_loads (pyStrip s) = none →
       get_manager_decision s ∈
         [Json.str "code_generation", Json.str "error_resolution",
          Json.str "code_change", Json.str "code_continuation"])
    ∧ (∀ (s : String) (v : Json), json_loads (pyStrip s) = some v → isJObj v = false →
       get_manager_decision s ∈
         [Json.str "code_generation", Json.str "error_resolution",
          Json.str "code_change", Json.str "code_continuation"])
    ∧ (∀ (s : String) (m : List (String × Json)), json_loads (pyStrip s) = some (Json.obj m) →
       get_manager_decision s = (lookupJ m "task").getD (Json.str "")) := by
  refine ⟨?_, ?_, ?_⟩
  · intro s h
    simp only [get_manager_decision, h]
    exact manager_fallback_mem _
  · intro s v h hv
    cases v <;> simp only [get_manager_decision, h]
    case obj m => exact absurd hv (by simp [isJObj])
    all_goals exact manager_fallback_mem _
  · intro s m h
    simp only [get_manager_decision, h]

/-- C7 witness: the three amended cases at concrete outputs. -/
theorem claim_C7_classification_amended_witness :
    get_manager_decision "zzz" ∈
      [Json.str "code_generation", Json.str "error_resolution",
       Json.str "code_change", Json.str "code_continuation"]
    ∧ get_manager_decision "[1]" ∈
      [Json.str "code_generation", Json.str "error_resolution",
       Json.str "code_change", Json.str "code_continuation"]
    ∧ get_manager_decision "\x7b\"task\": \"code_change\"\x7d"
        = (lookupJ [("task", Json.str "code_change")] "task").getD (Json.str "") :=
  ⟨claim_C7_classification_amended.1 "zzz" rfl,
   claim_C7_classification_amended.2.1 "[1]" (Json.arr [Json.num 1]) rfl rfl,
   claim_C7_classification_amended.2.2 "\x7b\"task\": \"code_change\"\x7d"
     [("task", Json.str "code_change")] rfl⟩

/-- C8 counterexample: a non-JSON output holding the error_resolution
literal does not classify as error_resolution when the code_generation
literal also occurs, because the substring chain tests code_generation
first. -/
theorem claim_C8_counterexample :
    json_loads (pyStrip "do code_generation and error_resolution") = none
    ∧ strContains (pyStrip "do code_generation and error_resolution") "error_resolution" = true
    ∧ get_manager_decision "do code_generation and error_resolution"
        = Json.str "code_generation"
    ∧ Json.str "code_generation" ≠ Json.str "error_resolution" :=
  ⟨rfl, rfl, rfl, by simp⟩

/-- C8 amended: for a stripped output that is not valid JSON, holding the
error_resolution literal classifies as error_resolution provided the
earlier-tested code_generation literal is absent; and holding none of the
four literals classifies as code_generation. -/
theorem claim_C8_substring_fallback_amended :
    (∀ s : String, json_loads (pyStrip s) = none →
       strContains (pyStrip s) "error_resolution" = true →
       strContains (pyStrip s) "code_generation" = false →
       get_manager_decision s = Json.str "error_resolution")
    ∧ (∀ s : String, json_loads (pyStrip s) = none →
       strContains (pyStrip s) "code_generation" = false →
       strContains (pyStrip s) "error_resolution" = false →
       strContains (pyStrip s) "code_change" = false →
       strContains (pyStrip s) "code_continuation" = false →
       get_manager_decision s = Json.str "code_generation") := by
  constructor
  · intro s h he hcg
    simp [get_manager_decision, manager_fallback, h, he, hcg]
  · intro s h h1 h2 h3 h4
    simp [get_manager_decision, manager_fallback, h, h1, h2, h3, h4]

/-- C8 witness: the two amended cases at concrete outputs. -/
theorem claim_C8_substring_fallback_amended_witness :
    get_manager_decision "use error_resolution" = Json.str "error_resolution"
    ∧ get_manager_decision "hello" = Json.str "code_generation" :=
  ⟨claim_C8_substring_fallback_amended.1 "use error_resolution" rfl rfl rfl,
   claim_C8_substring_fallback_amended.2 "hello" rfl rfl rfl rfl rfl⟩

/-- C9: each file of a bundle summarizes to its extension category, the
length of its content and exactly the first 100 characters of its
content; the extension mapping sends jsx to react_component case
insensitively and unmapped extensions to unknown; a non-dict input is
returned unchanged. -/
theorem claim_C9_structure_summary :
    (∀ (pm fm : List (String × Json)) (path content : String),
       (fm.map Prod.fst).Nodup →
       lookupJ pm "files" = some (Json.obj fm) →
       lookupJ fm path = some (Json.str content) →
       lookupJ (structure_files pm) path
         = some (Json.obj
             [("type", Json.str (get_file_type path)),
              ("size", Json.num (content.length : Int)),
              ("preview", Json.str (pyTake 100 content))]))
    ∧ get_file_type "App.jsx" = "react_component"
    ∧ get_file_type "Main.JSX" = "react_component"
    ∧ get_file_type "notes.xyz" = "unknown"
    ∧ (∀ v : Json, isJObj v = false → create_structure_only v = v) := by
  refine ⟨?_, rfl, rfl, rfl, ?_⟩
  · intro pm fm path content hnd h1 h2
    unfold structure_files
    rw [h1, lookupJ_foldl_objSet (fun p c => file_entry p c) fm [] path hnd, h2]
    simp only [Option.map, optOr, file_entry]
    rw [preview_str content]
    rfl
  · intro v hv
    cases v <;> simp_all [create_structure_only, isJObj]

/-- C9 witness: a single-file bundle with a 250-character content. -/
theorem claim_C9_structure_summary_witness :
    lookupJ (structure_files
        [("files", Json.obj [("f.jsx", Json.str (String.mk (List.replicate 250 'a')))])]) "f.jsx"
      = some (Json.obj
          [("type", Json.str (get_file_type "f.jsx")),
           ("size", Json.num ((String.mk (List.replicate 250 'a')).length : Int)),
           ("preview", Json.str (pyTake 100 (String.mk (List.replicate 250 'a'))))]) :=
  claim_C9_structure_summary.1
    [("files", Json.obj [("f.jsx", Json.str (String.mk (List.replicate 250 'a')))])]
    [("f.jsx", Json.str (String.mk (List.replicate 250 'a')))]
    "f.jsx" (String.mk (List.replicate 250 'a'))
    (by simp) rfl rfl

/-- C10: a dotless path is looked up whole, lowercased, in the extension
map, so a path named exactly like a map key classifies as that category
and any other dotless path classifies as unknown; and the function is
total, always answering one of the seven category strings. -/
theorem claim_C10_dotless_paths :
    (∀ p : String, p.toList.contains '.' = false →
       get_file_type p = type_map_get (pyLower p))
    ∧ get_file_type "jsx" = "react_component"
    ∧ (∀ p : String, p.toList.contains '.' = false →
       type_map_get (pyLower p) = "unknown" → get_file_type p = "unknown")
    ∧ (∀ p : String, get_file_type p ∈
        ["react_component", "javascript", "stylesheet", "configuration",
         "markup", "markdown", "unknown"]) := by
  have h1 : ∀ p : String, p.toList.contains '.' = false →
      get_file_type p = type_map_get (pyLower p) := by
    intro p hp
    unfold get_file_type
    rw [pySplitChar_of_not_contains _ _ hp]
    rfl
  refine ⟨h1, rfl, ?_, ?_⟩
  · intro p hp hu
    rw [h1 p hp, hu]
  · intro p
    unfold get_file_type
    exact type_map_get_mem _

/-- C10 witness: a dotless path not matching any key. -/
theorem claim_C10_dotless_paths_witness :
    get_file_type "README" = type_map_get (pyLower "README")
    ∧ get_file_type "Makefile" = "unknown" :=
  ⟨claim_C10_dotless_paths.1 "README" rfl,
   claim_C10_dotless_paths.2.2.1 "Makefile" rfl rfl⟩
